import Mathlib

/-!
# QwenChat2Api — verification of the gateway's core logic

Shallow embedding of the pure logic of the QwenChat2Api gateway:

* `src/lib/transformers.js` — the Qwen→OpenAI SSE stream transformer
  (`createQwenToOpenAIStreamTransformer`): buffering, record splitting,
  image-URL de-duplication, error-record handling;
* `src/lib/sse.js` / `src/main.js` (`createKeepAlive`, `executeQwenRequest`)
  — the terminal `data: [DONE]` sentinel behaviour of a streamed response;
* `src/lib/identity-pool.js` (shipped as `src/unnamed/part_002`) — the
  `Identity` health state machine (`isAvailable`, `markFailure`,
  `markSuccess`, `updateToken`) and the pool's round-robin selection
  (`IdentityPool.getAvailableIdentity`), with `isTokenExpired` /
  `getTokenExpiryTime` from `src/lib/config.js`;
* `src/main.js` — `calculateAspectRatio` and the text-to-image size table.

JavaScript strings are modelled as Lean `String` (lengths agree on the
ASCII payloads considered here), `Date.now()` as an explicit `now : Nat`
millisecond timestamp, and nullable fields as `Option`.
-/

namespace QwenChat2Api

/-! ## Frames pushed by the SSE layer

Every push of the stream transformer (and of the terminal guard) is one of:
* `Frame.done` — the literal frame `data: [DONE]\n\n`;
* `Frame.chunk content finished` — a `chat.completion.chunk` frame whose
  single choice has `delta.content = content` and
  `finish_reason = if finished then "stop" else null`.  (The `id`,
  `created` and `model` envelope fields carry no information relevant to
  the claims and are elided.)  The error frame built at
  transformers.js:55 has exactly this shape with
  `content = "Error: " ++ message` and `finished = true`, so it needs no
  separate constructor.
-/
inductive Frame where
  | done : Frame
  | chunk (content : String) (finished : Bool) : Frame
deriving DecidableEq, Repr

/-- `true` exactly on the terminal sentinel frame. -/
def Frame.isDone : Frame → Bool
  | .done => true
  | .chunk _ _ => false

/-- Number of terminal sentinel frames in an emitted frame list. -/
def countDone (fs : List Frame) : Nat := fs.countP Frame.isDone

/-! ## The decoded Qwen record

Typed view of the JSON object `JSON.parse` yields for one upstream
record, restricted to exactly the fields the transformer reads
(transformers.js:52-86).  A field the record lacks (or that is not of
the shape the code's truthiness checks accept) is `none`. -/

/-- The `delta` (or `message`) object of a choice: fields read at
transformers.js:63-74 (`content`, `phase`, `chat_type`, `status`). -/
structure QwenDelta where
  content : Option String
  phase : Option String
  chat_type : Option String
  status : Option String
deriving DecidableEq, Repr

/-- One element of `q.choices`: the code reads `choice.delta`,
`choice.message` and `choice.finish_reason` (transformers.js:61-75). -/
structure QwenChoice where
  delta : Option QwenDelta
  message : Option QwenDelta
  finish_reason : Option String
deriving DecidableEq, Repr

/-- The `q.result || q.data` value read at transformers.js:83-85: either a
plain string, or an object of which only `content` is read. -/
inductive RData where
  | str (s : String) : RData
  | obj (content : Option String) : RData
deriving DecidableEq, Repr

/-- A decoded upstream record, with the fields the transformer reads:
`q.success`, `q.data?.details`, `q.data?.code`, `q.choices`, `q.content`,
`q.status`, `q.finish_reason`, and `q.result || q.data`. -/
structure QwenObj where
  success : Option Bool
  dataDetails : Option String
  dataCode : Option String
  choices : List QwenChoice
  content : Option String
  status : Option String
  finish_reason : Option String
  resultOrData : Option RData
deriving DecidableEq, Repr

/-- The empty record: every field absent. -/
def QwenObj.empty : QwenObj :=
  { success := none, dataDetails := none, dataCode := none, choices := []
    content := none, status := none, finish_reason := none, resultOrData := none }

/-- JavaScript `a || dflt` on a possibly-absent string: the default when
the value is absent or the empty string (both falsy). -/
def strOr (a : Option String) (dflt : String) : String :=
  match a with
  | some s => if s = "" then dflt else s
  | none => dflt

/-! ### JavaScript string methods

The string methods the source relies on (`startsWith`, `split`,
`includes`, `trim`, `Number`, slicing) are modelled directly on the
character list `s.data` by structural recursion, following the
JavaScript semantics on the ASCII payloads at hand. -/

/-- `dropIfPre pre l` returns the remainder of `l` after the leading
occurrence of `pre`, or `none` when `l` does not start with `pre`. -/
def dropIfPre : List Char → List Char → Option (List Char)
  | [], l => some l
  | _ :: _, [] => none
  | c :: cs, d :: ds => if c = d then dropIfPre cs ds else none

/-- JavaScript `s.startsWith(pre)`. -/
def strStartsWith (s pre : String) : Bool := (dropIfPre pre.data s.data).isSome

/-- Splitting worker: scans the list left to right, breaking at each
non-overlapping occurrence of `sep`; the fuel (initially the list
length, which bounds the number of steps) keeps the recursion
structural. -/
def splitOnGo (sep : List Char) : Nat → List Char → List Char → List (List Char)
  | _, [], acc => [acc.reverse]
  | 0, l, acc => [acc.reverse ++ l]
  | fuel + 1, c :: rest, acc =>
    match dropIfPre sep (c :: rest) with
    | some rem => acc.reverse :: splitOnGo sep fuel rem []
    | none => splitOnGo sep fuel rest (c :: acc)

/-- JavaScript `s.split(sep)` for a non-empty `sep` (the only way the
source calls it), on character lists. -/
def listSplitOn (l sep : List Char) : List (List Char) :=
  if sep = [] then [l] else splitOnGo sep l.length l []

/-- JavaScript `s.split(sep)` on strings. -/
def strSplitOn (s sep : String) : List String :=
  (listSplitOn s.data sep.data).map String.mk

/-- JavaScript `s.includes(sub)` for a non-empty `sub`: the split on
`sub` has more than one part exactly when `sub` occurs in `s`. -/
def strIncludes (s sub : String) : Bool := (listSplitOn s.data sub.data).length > 1

/-- JavaScript `s.trim()`: strip leading and trailing whitespace. -/
def strTrim (s : String) : String :=
  String.mk (((s.data.dropWhile Char.isWhitespace).reverse.dropWhile
    Char.isWhitespace).reverse)

/-- `s.slice(n)` / dropping the first `n` characters. -/
def strDrop (s : String) (n : Nat) : String := String.mk (s.data.drop n)

/-- JavaScript `Number(s)` restricted to the non-negative integer
numerals the aspect-ratio code deals in: `none` stands for a value that
is falsy or `NaN` (the empty string's `Number` is the falsy `0`, so
mapping it to `none` preserves every truthiness check made on it). -/
def strToNat? (s : String) : Option Nat :=
  if s.data = [] then none
  else if s.data.all Char.isDigit then
    some (s.data.foldl (fun acc c => acc * 10 + (c.toNat - ('0' : Char).toNat)) 0)
  else none

/-! ## The stream transformer (transformers.js:7-103) -/

/-- Per-stream transformer state: the accumulation `buffer` and the set
`sentImageUrls` of image URLs already emitted (modelled as a list,
membership via `List.contains`). -/
structure TState where
  buffer : String
  sentImageUrls : List String
deriving DecidableEq, Repr

/-- Fresh transformer state (transformers.js:9-10). -/
def initTState : TState := { buffer := "", sentImageUrls := [] }

/-- The image-URL de-duplication step used at transformers.js:67, 70 and
80: first occurrence of `c` is recorded and wrapped as a markdown image,
a repeated occurrence becomes empty content. -/
def dedupImage (sent : List String) (c : String) : List String × String :=
  if sent.contains c then (sent, "")
  else (sent ++ [c], "![Image](" ++ c ++ ")")

/-- Final push decision of the record loop (transformers.js:91-94): a
chunk frame is pushed iff the content is truthy or the record finished. -/
def emitChunk (sent : List String) (content : String) (isFinished : Bool) :
    List String × List Frame :=
  (sent, if content ≠ "" ∨ isFinished then [Frame.chunk content isFinished] else [])

/-- Processing of one successfully decoded record
(transformers.js:52-94), threading the sent-image-URL set and returning
the frames pushed for this record. -/
def processObj (sent : List String) (q : QwenObj) : List String × List Frame :=
  if q.success = some false then
    -- transformers.js:53-58: synthesize an error chunk plus a terminal
    -- frame, then `continue` with the next record.
    let errorMessage := strOr q.dataDetails (strOr q.dataCode "Unknown Qwen API error")
    (sent, [Frame.chunk ("Error: " ++ errorMessage) true, Frame.done])
  else
    match q.choices with
    | choice :: _ =>
      -- transformers.js:60-76
      match choice.delta.orElse (fun _ => choice.message) with
      | some delta =>
        let content := (delta.content).getD ""
        let (sent', content') :=
          if delta.phase = some "image_gen" then
            if content ≠ "" ∧ strStartsWith content "https://" then dedupImage sent content
            else (sent, content)
          else if (delta.chat_type = some "t2i" ∨ delta.chat_type = some "image_edit")
              ∧ strStartsWith content "https://" then
            dedupImage sent content
          else (sent, content)
        let isFinished := delta.status = some "finished" ∨ choice.finish_reason = some "stop"
        emitChunk sent' content' isFinished
      | none => (sent, [])
    | [] =>
      match q.content with
      | some c =>
        if c ≠ "" then
          -- transformers.js:77-82
          let (sent', c') :=
            if strStartsWith c "https://" ∧ strIncludes c "cdn.qwenlm.ai" then dedupImage sent c
            else (sent, c)
          emitChunk sent' c' (q.status = some "finished" ∨ q.finish_reason = some "stop")
        else
          -- falsy `q.content` falls through to the `q.result || q.data` branch
          match q.resultOrData with
          | some (.str s) => emitChunk sent s false
          | some (.obj oc) => emitChunk sent (strOr oc "") false
          | none => (sent, [])
      | none =>
        match q.resultOrData with
        | some (.str s) => emitChunk sent s false
        | some (.obj oc) => emitChunk sent (strOr oc "") false
        | none => (sent, [])

/-- Processing of one split-off line (transformers.js:43-94).  `decode`
is the oracle for `JSON.parse`: `none` when parsing (or the subsequent
property access) throws, in which case the raw payload is forwarded as
content unless it looks like JSON (transformers.js:87-89). -/
def processLine (decode : String → Option QwenObj) (sent : List String)
    (line : String) : List String × List Frame :=
  if strTrim line = "" then (sent, [])
  else
    let dataStr := if strStartsWith line "data:" then strTrim (strDrop line 5) else strTrim line
    if dataStr = "" then (sent, [])
    else if dataStr = "[DONE]" then (sent, [Frame.done])
    else
      match decode dataStr with
      | some q => processObj sent q
      | none =>
        if ¬ strStartsWith dataStr "\x7b" then (sent, [Frame.chunk dataStr false])
        else (sent, [])

/-- The record loop over the lines split off from the buffer
(transformers.js:43-95), concatenating the pushed frames. -/
def processLines (decode : String → Option QwenObj) (sent : List String) :
    List String → List String × List Frame
  | [] => (sent, [])
  | l :: ls =>
    let (s₁, f₁) := processLine decode sent l
    let (s₂, f₂) := processLines decode s₁ ls
    (s₂, f₁ ++ f₂)

/-- The buffer-splitting step (transformers.js:30-42): returns the list
of complete lines to process and the retained remainder. -/
def splitBuffer (buffer : String) : List String × String :=
  if strIncludes buffer "\n\n" then
    let parts := strSplitOn buffer "\n\n"
    (parts.dropLast, parts.getLastD "")
  else if strIncludes buffer "\n" then
    let parts := strSplitOn buffer "\n"
    let lastLine := parts.getLastD ""
    if lastLine ≠ "" ∧ ¬ strStartsWith lastLine "data:" then (parts.dropLast, lastLine)
    else (parts, "")
  else ([], buffer)

/-- The `MAX_BUFFER_SIZE` cap of transformers.js:11. -/
def MAX_BUFFER_SIZE : Nat := 100000

/-- One `transform(chunk, …)` call of the stream transformer
(transformers.js:16-101): append the chunk, clear on overflow, shortcut
on a `[DONE]` marker anywhere in the buffer, otherwise split and process
complete lines. -/
def transformChunk (decode : String → Option QwenObj) (st : TState)
    (chunk : String) : TState × List Frame :=
  let buffer := st.buffer ++ chunk
  if buffer.length > MAX_BUFFER_SIZE then
    ({ st with buffer := "" }, [])
  else if strIncludes buffer "[DONE]" then
    ({ st with buffer := "" }, [Frame.done])
  else
    let (lines, buffer') := splitBuffer buffer
    let (sent', frames) := processLines decode st.sentImageUrls lines
    ({ buffer := buffer', sentImageUrls := sent' }, frames)

/-- The transformer run over a whole sequence of upstream chunks,
concatenating the frames pushed to the response. -/
def runTransformer (decode : String → Option QwenObj) (st : TState) :
    List String → TState × List Frame
  | [] => (st, [])
  | c :: cs =>
    let (st₁, f₁) := transformChunk decode st c
    let (st₂, f₂) := runTransformer decode st₁ cs
    (st₂, f₁ ++ f₂)

/-- The frames a client sees for one streamed logical response
(main.js:525-557): the upstream chunks flow through a fresh transformer
piped with `end: false`, and when the upstream stream ends,
`safeWriteDone` of `createKeepAlive` (sse.js:11-18) — whose
`respondedDone` latch has not been set by anything before that point —
unconditionally writes one more `data: [DONE]\n\n` frame and ends the
response. -/
def executeQwenRequestStreamFrames (decode : String → Option QwenObj)
    (chunks : List String) : List Frame :=
  (runTransformer decode initTState chunks).2 ++ [Frame.done]

/-! ## Tokens and the identity pool (src/unnamed/part_002, src/lib/config.js) -/

/-- Modelled view of a bearer token: only the decoded JWT `exp` claim
(seconds since epoch) matters to the code; `exp = none` stands for a
token that cannot be parsed or has no `exp` claim
(config.js `parseJwtToken`). -/
structure Token where
  exp : Option Nat
deriving DecidableEq, Repr

/-- config.js:39-47 — a token without a readable `exp` counts as
expired; otherwise it is expired when `exp < floor(now / 1000)`.
`now` is the `Date.now()` millisecond timestamp. -/
def isTokenExpired (now : Nat) (t : Token) : Bool :=
  match t.exp with
  | none => true
  | some e => decide (e < now / 1000)

/-- config.js:50-56 — the token's expiry as a millisecond timestamp. -/
def getTokenExpiryTime (t : Token) : Option Nat := t.exp.map (· * 1000)

/-- The `IDENTITY_STATUS` enumeration of identity-pool.js. -/
inductive IdentityStatus where
  | healthy : IdentityStatus
  | degraded : IdentityStatus
  | down : IdentityStatus
deriving DecidableEq, Repr

/-- One credential of the pool (class `Identity`, identity-pool.js).
`nextRetryAt` is the circuit-breaker recovery time (the spec's
`nextEligibleAt`), `lastError` the cause recorded by `markFailure`. -/
structure Identity where
  id : String
  cookie : String
  token : Option Token
  tokenExp : Option Nat
  status : IdentityStatus
  failCount : Nat
  lastUsedAt : Option Nat
  nextRetryAt : Option Nat
  lastError : Option String
deriving DecidableEq, Repr

/-- The `Identity` constructor: fresh credential with no token, healthy
status and a zero failure count. -/
def newIdentity (id cookie : String) : Identity :=
  { id := id, cookie := cookie, token := none, tokenExp := none
    status := .healthy, failCount := 0, lastUsedAt := none
    nextRetryAt := none, lastError := none }

/-- `Identity.isAvailable` (identity-pool.js:212-223): not Down, not in
the circuit-breaker cool-down window, and holding an unexpired token —
checked in that order, so Down overrides everything else. -/
def Identity.isAvailable (now : Nat) (i : Identity) : Bool :=
  if i.status = .down then false
  else if (match i.nextRetryAt with | some r => decide (now < r) | none => false) then false
  else match i.token with
    | none => false
    | some t => ! isTokenExpired now t

/-- `Identity.markFailure` (identity-pool.js:226-244): increment the
failure count and record the cause; at a count of 5 or more become Down
with a 5-minute cool-down, else at 3 or more become Degraded with a
2-minute cool-down; below 3 the status and cool-down are untouched. -/
def Identity.markFailure (now : Nat) (err : Option String) (i : Identity) : Identity :=
  let i' := { i with failCount := i.failCount + 1, lastError := err }
  if i'.failCount ≥ 5 then
    { i' with status := .down, nextRetryAt := some (now + 5 * 60 * 1000) }
  else if i'.failCount ≥ 3 then
    { i' with status := .degraded, nextRetryAt := some (now + 2 * 60 * 1000) }
  else i'

/-- `Identity.markSuccess` (identity-pool.js:247-257): decrement the
failure count when positive; restore Healthy (clearing the cool-down)
only when the status is not Healthy and the identity — after the
decrement — is available; record the use time. -/
def Identity.markSuccess (now : Nat) (i : Identity) : Identity :=
  let i₁ := if i.failCount > 0 then { i with failCount := i.failCount - 1 } else i
  let i₂ :=
    if i₁.status ≠ .healthy ∧ i₁.isAvailable now then
      { i₁ with status := .healthy, nextRetryAt := none }
    else i₁
  { i₂ with lastUsedAt := some now }

/-- `Identity.updateToken` (identity-pool.js:260-266): install a new
token and cache its expiry; nothing else changes. -/
def Identity.updateToken (t : Token) (i : Identity) : Identity :=
  { i with token := some t, tokenExp := getTokenExpiryTime t }

/-- The pool (class `IdentityPool`): the credential list and the
round-robin cursor. -/
structure IdentityPool where
  identities : List Identity
  currentIndex : Nat
deriving DecidableEq, Repr

/-- `IdentityPool.getAvailableIdentity` (identity-pool.js:337-360):
filter to the available identities and serve them round-robin, advancing
the cursor; when none is available fall back — without advancing the
cursor — to the identities that hold a token at all; return `none` only
when no identity holds a token. -/
def IdentityPool.getAvailableIdentity (now : Nat) (p : IdentityPool) :
    Option Identity × IdentityPool :=
  if p.identities = [] then (none, p)
  else
    let availableIdentities := p.identities.filter (Identity.isAvailable now)
    if availableIdentities = [] then
      let allIdentities := p.identities.filter (fun i => i.token.isSome)
      if allIdentities = [] then (none, p)
      else (allIdentities.get? (p.currentIndex % allIdentities.length), p)
    else
      let selected := availableIdentities.get? (p.currentIndex % availableIdentities.length)
      (selected, { p with currentIndex := (p.currentIndex + 1) % availableIdentities.length })

/-! ## Aspect-ratio mapping (src/main.js) -/

/-- The tail-recursive gcd at main.js:138 (`gcd(a,b) = b===0 ? a : gcd(b, a%b)`). -/
def jsGcd (a b : Nat) : Nat :=
  if h : b = 0 then a else jsGcd b (a % b)
termination_by b
decreasing_by exact Nat.mod_lt _ (Nat.pos_of_ne_zero h)

/-- `calculateAspectRatio` (main.js:135-141): parse `"WxH"`, answer
`"1:1"` when either side is missing, non-numeric or zero, else the ratio
reduced by the gcd. -/
def calculateAspectRatio (size : String) : String :=
  let parts := strSplitOn size "x"
  match strToNat? (parts.getD 0 ""), strToNat? (parts.getD 1 "") with
  | some w, some h =>
    if w = 0 ∨ h = 0 then "1:1"
    else
      let d := jsGcd w h
      Nat.repr (w / d) ++ ":" ++ Nat.repr (h / d)
  | _, _ => "1:1"

/-- The fixed size table of main.js:295. -/
def sizeMap : List (String × String) :=
  [("256x256", "1:1"), ("512x512", "1:1"), ("1024x1024", "1:1"),
   ("1792x1024", "16:9"), ("1024x1792", "9:16"), ("2048x2048", "1:1"),
   ("1152x768", "3:2"), ("768x1152", "2:3")]

/-- main.js:296 — `sizeMap[openAISize] || calculateAspectRatio(openAISize)`
(every table entry is a non-empty string, so `||` is a plain lookup
with fallback). -/
def mapSizeToAspectRatio (size : String) : String :=
  (sizeMap.lookup size).getD (calculateAspectRatio size)

/-! ## Concrete fixtures used by the theorems below -/

/-- A decode oracle that refuses every payload (models `JSON.parse`
throwing).  The inputs it is used with never reach `JSON.parse` at all,
because the `[DONE]` shortcut of transformers.js:25 fires first. -/
def refuseDecode : String → Option QwenObj := fun _ => none

/-- The upstream-failure payload `\x7b"success":false\x7d` as a string. -/
def failPayload : String := "\x7b\"success\":false\x7d"

/-- An ordinary content payload
`\x7b"choices":[\x7b"delta":\x7b"content":"hello"\x7d\x7d]\x7d` as a string. -/
def helloPayload : String :=
  "\x7b\"choices\":[\x7b\"delta\":\x7b\"content\":\"hello\"\x7d\x7d]\x7d"

/-- The delta object of the ordinary content record: `content: "hello"`. -/
def helloDelta : QwenDelta :=
  { content := some "hello", phase := none, chat_type := none, status := none }

/-- The single choice of the ordinary content record. -/
def helloChoice : QwenChoice :=
  { delta := some helloDelta, message := none, finish_reason := none }

/-- The values `JSON.parse` returns on the two record payloads above: an
upstream-failure record (`success: false`, no `data` object) and an
ordinary delta-content record. -/
def sampleDecode : String → Option QwenObj := fun s =>
  if s = failPayload then some { QwenObj.empty with success := some false }
  else if s = helloPayload then some { QwenObj.empty with choices := [helloChoice] }
  else none

/-- The delta of an image-phase record: `phase: "image_gen"` and the
image URL as content, carrying no finish signal. -/
def imageGenDelta (url : String) : QwenDelta :=
  { content := some url, phase := some "image_gen", chat_type := none, status := none }

/-- An image-phase record as the upstream emits while generating an
image: one choice whose delta is `imageGenDelta url`. -/
def imageGenRecord (url : String) : QwenObj :=
  { QwenObj.empty with choices :=
    [{ delta := some (imageGenDelta url), message := none, finish_reason := none }] }

/-- A bearer token whose decoded `exp` lies far in the future. -/
def sampleToken : Token := { exp := some 1000000000 }

/-- A chunk of 100001 bytes without any record delimiter. -/
def hugeChunk : String := String.mk (List.replicate 100001 'a')

/-- First pool credential, holding a fresh token. -/
def rrA : Identity := (newIdentity "identity-1" "cookie-1").updateToken sampleToken

/-- Second pool credential, holding a fresh token. -/
def rrB : Identity := (newIdentity "identity-2" "cookie-2").updateToken sampleToken

/-- A two-credential pool with the cursor at 0. -/
def rrPool : IdentityPool := { identities := [rrA, rrB], currentIndex := 0 }

/-- A fresh credential after three failures at time 0: failure count 3,
stored status Degraded, no token. -/
def threeFailures : Identity :=
  (((newIdentity "a" "ca").markFailure 0 none).markFailure 0 none).markFailure 0 none

/-- The same credential after three further successes, still at time 0:
its failure count is back to 0 but its stored status still reads
Degraded. -/
def staleIdentity : Identity :=
  ((threeFailures.markSuccess 0).markSuccess 0).markSuccess 0

/-- A fresh credential after two failures at time 0. -/
def twoFailures : Identity :=
  ((newIdentity "w" "cw").markFailure 0 none).markFailure 0 none

/-- A credential driven to Down by five consecutive failures at time 0
(its token itself stays valid). -/
def downIdentity : Identity :=
  ((((((newIdentity "cb" "cookie").updateToken sampleToken).markFailure 0
    none).markFailure 0 none).markFailure 0 none).markFailure 0 none).markFailure 0 none

/-- The Down credential after three successes and one further failure,
all at time 0: the failure count re-entered the Degraded band and the
identity was relabelled Degraded with a 2-minute cool-down. -/
def escapedIdentity : Identity :=
  ((((downIdentity.markSuccess 0).markSuccess 0).markSuccess 0).markFailure 0 none)

/-! ## Helper lemmas -/

/-- A string beginning with `https://` is non-empty. -/
theorem startsWith_https_ne (s : String) (h : strStartsWith s "https://" = true) :
    s ≠ "" := by
  intro he
  rw [he] at h
  exact absurd h (by decide)

/-- The markdown-image wrapper never produces the empty string. -/
theorem markdown_ne_empty (url : String) : ("![Image](" ++ url ++ ")") ≠ "" := by
  intro h
  have hl := congrArg String.length h
  rw [String.length_append, String.length_append] at hl
  have h9 : ("![Image](" : String).length = 9 := rfl
  have h1 : (")" : String).length = 1 := rfl
  have h0 : ("" : String).length = 0 := rfl
  omega

/-- The JavaScript gcd of main.js:138 agrees with `Nat.gcd`. -/
theorem jsGcd_eq_gcd (a b : Nat) : jsGcd a b = Nat.gcd a b := by
  induction b using Nat.strong_induction_on generalizing a with
  | _ b ih =>
    rw [jsGcd]
    by_cases h : b = 0
    · subst h; simp
    · rw [dif_neg h, ih (a % b) (Nat.mod_lt _ (Nat.pos_of_ne_zero h)) b]
      exact (Nat.gcd_comm b (a % b)).trans
        ((Nat.gcd_rec b a).symm.trans (Nat.gcd_comm b a))

/-! ## C1 — the terminal sentinel frame -/

/-- Claim C1, amended: every streamed logical response eventually carries
the terminal sentinel frame — at least once, and the response ends with
it — but not exactly once in general: the transformer forwards upstream
`[DONE]` markers (transformers.js:25-29, 47) and the end-of-stream guard
`safeWriteDone` (sse.js:13-18) unconditionally appends one more. -/
theorem terminalFrame_emitted_at_least_once
    (decode : String → Option QwenObj) (chunks : List String) :
    1 ≤ countDone (executeQwenRequestStreamFrames decode chunks) ∧
    (executeQwenRequestStreamFrames decode chunks).getLast? = some Frame.done := by
  unfold executeQwenRequestStreamFrames
  constructor
  · rw [countDone, List.countP_append]
    have hone : List.countP Frame.isDone [Frame.done] = 1 := rfl
    omega
  · exact List.getLast?_concat _

/-- Claim C1 counterexample: when the upstream stream consists of the
single chunk `"data: [DONE]\n\n"`, the client receives the terminal
frame twice — once forwarded by the transformer and once appended by the
end-of-stream guard — so it is not emitted exactly once. -/
theorem terminalFrame_not_exactly_once :
    countDone (executeQwenRequestStreamFrames refuseDecode ["data: [DONE]\n\n"]) = 2 := by
  rfl

/-! ## C2 — upstream-failure records -/

/-- Claim C2, amended: a decoded record whose `success` flag is `false`
yields exactly one error-content frame followed by one terminal frame —
but the transformer does **not** stop there: the record loop continues
with every remaining record of the stream (the code `continue`s at
transformers.js:58), so content frames from later records are still
emitted. -/
theorem errorRecord_emits_error_done_but_loop_continues :
    (∀ (sent : List String) (q : QwenObj), q.success = some false →
      processObj sent q =
        (sent,
         [Frame.chunk
            ("Error: " ++ strOr q.dataDetails (strOr q.dataCode "Unknown Qwen API error"))
            true,
          Frame.done])) ∧
    (∀ (decode : String → Option QwenObj) (sent : List String) (l : String)
        (ls : List String),
      (processLines decode sent (l :: ls)).2 =
        (processLine decode sent l).2 ++
          (processLines decode (processLine decode sent l).1 ls).2) := by
  constructor
  · intro sent q h
    unfold processObj
    rw [if_pos h]
  · intro decode sent l ls
    rcases hpl : processLine decode sent l with ⟨s₁, f₁⟩
    rcases hls : processLines decode s₁ ls with ⟨s₂, f₂⟩
    simp [processLines, hpl, hls]

/-- Witness for C2's theorem at a concrete failing record. -/
theorem errorRecord_witness :
    processObj [] { QwenObj.empty with success := some false } =
      ([], [Frame.chunk "Error: Unknown Qwen API error" true, Frame.done]) :=
  errorRecord_emits_error_done_but_loop_continues.1 [] _ rfl

/-- Claim C2 counterexample: a single chunk holding a failure record and
then an ordinary content record.  The transformer emits the error frame
and the terminal frame for the first record and then still emits the
content frame of the second record — it does not treat the failure as
the end of the stream. -/
theorem errorRecord_does_not_end_stream :
    (transformChunk sampleDecode initTState
        ("data: " ++ failPayload ++ "\n\ndata: " ++ helloPayload ++ "\n\n")).2 =
      [Frame.chunk "Error: Unknown Qwen API error" true, Frame.done,
       Frame.chunk "hello" false] := by
  rfl

/-! ## C6 — image-URL de-duplication -/

/-- Claim C6: within one stream, an image-phase record carrying an
`https://` URL is wrapped as a markdown embedded image only on the first
occurrence of that exact URL; a repeated occurrence yields empty content
and — carrying neither content nor a finish signal — produces no frame
at all. -/
theorem imageUrl_dedup (sent : List String) (url : String)
    (hs : strStartsWith url "https://" = true) :
    (url ∉ sent →
      processObj sent (imageGenRecord url) =
        (sent ++ [url], [Frame.chunk ("![Image](" ++ url ++ ")") false])) ∧
    (url ∈ sent →
      processObj sent (imageGenRecord url) = (sent, [])) := by
  have hne : url ≠ "" := startsWith_https_ne url hs
  constructor
  · intro hmem
    simp [processObj, imageGenRecord, imageGenDelta, QwenObj.empty, dedupImage,
      emitChunk, hne, hs, hmem, markdown_ne_empty url]
  · intro hmem
    simp [processObj, imageGenRecord, imageGenDelta, QwenObj.empty, dedupImage,
      emitChunk, hne, hs, hmem]

/-- Witness for C6 at a concrete URL and a fresh stream. -/
theorem imageUrl_dedup_witness :
    processObj [] (imageGenRecord "https://img.example/cat.png") =
      (["https://img.example/cat.png"],
       [Frame.chunk "![Image](https://img.example/cat.png)" false]) ∧
    processObj ["https://img.example/cat.png"]
        (imageGenRecord "https://img.example/cat.png") =
      (["https://img.example/cat.png"], []) :=
  ⟨(imageUrl_dedup [] "https://img.example/cat.png" (by decide)).1 (by decide),
   (imageUrl_dedup ["https://img.example/cat.png"] "https://img.example/cat.png"
      (by decide)).2 (by decide)⟩

/-! ## C7 — buffer overflow -/

/-- Claim C7: when appending an incoming chunk pushes the accumulation
buffer over the 100000-byte cap, the transformer discards the whole
buffer, emits no frame for that chunk and surfaces no error (the
function is total and the retained state is a valid empty-buffer state,
so processing of later chunks continues). -/
theorem buffer_overflow_clears_silently
    (decode : String → Option QwenObj) (st : TState) (chunk : String)
    (h : MAX_BUFFER_SIZE < (st.buffer ++ chunk).length) :
    transformChunk decode st chunk = ({ st with buffer := "" }, []) := by
  simp only [transformChunk]
  split
  · rfl
  · omega

/-- Witness for C7: a 100001-byte delimiter-free chunk fed to a fresh
transformer is dropped whole, with no emitted frame. -/
theorem buffer_overflow_witness :
    transformChunk refuseDecode initTState hugeChunk =
      ({ initTState with buffer := "" }, []) := by
  have h : MAX_BUFFER_SIZE < (initTState.buffer ++ hugeChunk).length := by
    show MAX_BUFFER_SIZE < (List.replicate 100001 'a').length
    rw [List.length_replicate]
    decide
  exact buffer_overflow_clears_silently refuseDecode initTState hugeChunk h

/-! ## C8 — round-robin fairness -/

/-- Claim C8: with two credentials that are available at every call,
four consecutive selections return them in strict alternating order. -/
theorem round_robin_alternates :
    rrA.isAvailable 0 = true ∧ rrB.isAvailable 0 = true ∧
    (rrPool.getAvailableIdentity 0).1 = some rrA ∧
    ((rrPool.getAvailableIdentity 0).2.getAvailableIdentity 0).1 = some rrB ∧
    (((rrPool.getAvailableIdentity 0).2.getAvailableIdentity
        0).2.getAvailableIdentity 0).1 = some rrA ∧
    ((((rrPool.getAvailableIdentity 0).2.getAvailableIdentity
        0).2.getAvailableIdentity 0).2.getAvailableIdentity 0).1 = some rrB := by
  decide

/-! ## C9 — aspect-ratio mapping -/

/-- Claim C9: the requested size `"1792x1024"` maps to `"16:9"` through
the fixed lookup table; a size absent from the table maps to the reduced
integer ratio `w/gcd(w,h) : h/gcd(w,h)`; in particular the unlisted
`"300x200"` maps to `"3:2"`. -/
theorem aspect_ratio_mapping :
    mapSizeToAspectRatio "1792x1024" = "16:9" ∧
    mapSizeToAspectRatio "300x200" = "3:2" ∧
    (∀ (s sw sh : String) (w h : Nat),
      sizeMap.lookup s = none →
      strSplitOn s "x" = [sw, sh] →
      strToNat? sw = some w → strToNat? sh = some h → 0 < w → 0 < h →
      mapSizeToAspectRatio s =
        Nat.repr (w / Nat.gcd w h) ++ ":" ++ Nat.repr (h / Nat.gcd w h)) := by
  refine ⟨rfl, ?_, ?_⟩
  · have h1 : mapSizeToAspectRatio "300x200" =
        Nat.repr (300 / jsGcd 300 200) ++ ":" ++ Nat.repr (200 / jsGcd 300 200) := rfl
    rw [h1, jsGcd_eq_gcd, show Nat.gcd 300 200 = 100 from by norm_num]
    rfl
  · intro s sw sh w h hlk hsplit hw hh hw0 hh0
    simp only [mapSizeToAspectRatio, calculateAspectRatio]
    rw [hlk, hsplit]
    simp only [Option.getD_none, List.getD_cons_zero, List.getD_cons_succ]
    rw [hw, hh]
    show (if w = 0 ∨ h = 0 then "1:1"
      else Nat.repr (w / jsGcd w h) ++ ":" ++ Nat.repr (h / jsGcd w h)) = _
    rw [if_neg (by omega : ¬(w = 0 ∨ h = 0))]
    rw [jsGcd_eq_gcd]

/-- Witness for C9's fallback branch at the unlisted size `"600x400"`. -/
theorem aspect_ratio_witness : mapSizeToAspectRatio "600x400" = "3:2" := by
  have h := aspect_ratio_mapping.2.2 "600x400" "600" "400" 600 400 rfl rfl rfl rfl
    (by decide) (by decide)
  rw [h, show Nat.gcd 600 400 = 200 from by norm_num]
  rfl

/-! ## C3 — failure accounting -/

/-- Claim C3: every `markFailure` call increments the failure count by
exactly one; a resulting count of 5 or more makes the status Down with a
5-minute cool-down, a resulting count of at least 3 (and below 5 — the
Down threshold takes precedence, per the spec's cascade) makes it
Degraded with a 2-minute cool-down; below 3 neither status nor cool-down
is touched, so the transition itself never resets the counter; and only
`markSuccess` ever decreases the counter — by exactly one (floored at
zero). -/
theorem markFailure_thresholds (now : Nat) (err : Option String) (i : Identity) :
    (i.markFailure now err).failCount = i.failCount + 1 ∧
    (5 ≤ (i.markFailure now err).failCount →
      (i.markFailure now err).status = .down ∧
      (i.markFailure now err).nextRetryAt = some (now + 5 * 60 * 1000)) ∧
    (3 ≤ (i.markFailure now err).failCount → (i.markFailure now err).failCount < 5 →
      (i.markFailure now err).status = .degraded ∧
      (i.markFailure now err).nextRetryAt = some (now + 2 * 60 * 1000)) ∧
    ((i.markFailure now err).failCount < 3 →
      (i.markFailure now err).status = i.status ∧
      (i.markFailure now err).nextRetryAt = i.nextRetryAt) ∧
    (i.markSuccess now).failCount = i.failCount - 1 := by
  refine ⟨?_, ?_, ?_, ?_, ?_⟩ <;>
    simp only [Identity.markFailure, Identity.markSuccess] <;>
    split_ifs <;> intros <;> simp_all <;> omega

/-- Witness for C3 at a credential whose third failure crosses the
Degraded threshold. -/
theorem markFailure_witness :
    (twoFailures.markFailure 0 none).status = .degraded ∧
    (twoFailures.markFailure 0 none).nextRetryAt = some (0 + 2 * 60 * 1000) :=
  (markFailure_thresholds 0 none twoFailures).2.2.1 (by decide) (by decide)

/-! ## C10 helper -/

/-- The Down check is the first test of `isAvailable`
(identity-pool.js:213-215): a Down identity is unavailable at every
time, whatever its cool-down or token say. -/
theorem down_not_available (now : Nat) (i : Identity) (h : i.status = .down) :
    Identity.isAvailable now i = false := by
  unfold Identity.isAvailable
  rw [if_pos h]

/-! ## C4 — selection semantics -/

/-- Claim C4: selection filters the pool to credentials that are not
Down, past their cool-down, and holding an unexpired token; when that
set is non-empty it serves its member at cursor mod size and advances
the cursor; when it is empty it falls back (cursor untouched) to the
credentials holding any token, in cursor order and ignoring health; and
it returns `none` exactly when no credential holds a token. -/
theorem getAvailableIdentity_spec (now : Nat) (p : IdentityPool) :
    (∀ i : Identity, Identity.isAvailable now i = true ↔
      (i.status ≠ .down ∧ (∀ r, i.nextRetryAt = some r → r ≤ now) ∧
       ∃ t, i.token = some t ∧ isTokenExpired now t = false)) ∧
    (p.identities.filter (Identity.isAvailable now) ≠ [] →
      (p.getAvailableIdentity now).1 =
        (p.identities.filter (Identity.isAvailable now)).get?
          (p.currentIndex % (p.identities.filter (Identity.isAvailable now)).length) ∧
      (p.getAvailableIdentity now).2.identities = p.identities ∧
      (p.getAvailableIdentity now).2.currentIndex =
        (p.currentIndex + 1) % (p.identities.filter (Identity.isAvailable now)).length) ∧
    (p.identities.filter (Identity.isAvailable now) = [] →
      p.identities.filter (fun i => i.token.isSome) ≠ [] →
      (p.getAvailableIdentity now).1 =
        (p.identities.filter (fun i => i.token.isSome)).get?
          (p.currentIndex % (p.identities.filter (fun i => i.token.isSome)).length) ∧
      (p.getAvailableIdentity now).2 = p) ∧
    ((p.getAvailableIdentity now).1 = none ↔
      p.identities.filter (fun i => i.token.isSome) = []) := by
  have havail : ∀ i : Identity, Identity.isAvailable now i = true ↔
      (i.status ≠ .down ∧ (∀ r, i.nextRetryAt = some r → r ≤ now) ∧
       ∃ t, i.token = some t ∧ isTokenExpired now t = false) := by
    intro i
    unfold Identity.isAvailable
    by_cases hd : i.status = .down
    · simp [hd]
    · rw [if_neg hd]
      cases hnr : i.nextRetryAt with
      | some r =>
        by_cases hr : now < r
        · rw [if_pos (decide_eq_true hr)]
          constructor
          · intro hfalse; cases hfalse
          · rintro ⟨-, h2, -⟩
            exact absurd (h2 r rfl) (by omega)
        · cases ht : i.token with
          | none => simp [hr, hd, ht]
          | some t => simp [hr, hd, ht, Nat.le_of_not_lt hr]
      | none =>
        cases ht : i.token with
        | none => simp [hd, ht]
        | some t => simp [hd, ht]
  have hne : ∀ (f : Identity → Bool), p.identities.filter f ≠ [] →
      ¬ p.identities = [] := by
    intro f hf hcon
    rw [hcon] at hf
    exact hf rfl
  refine ⟨havail, ?_, ?_, ?_⟩
  · intro hav
    simp only [IdentityPool.getAvailableIdentity]
    rw [if_neg (hne _ hav), if_neg hav]
    exact ⟨rfl, rfl, rfl⟩
  · intro hav hall
    simp only [IdentityPool.getAvailableIdentity]
    rw [if_neg (hne _ hall), if_pos hav, if_neg hall]
    exact ⟨rfl, rfl⟩
  · constructor
    · intro hnone
      by_cases hid : p.identities = []
      · rw [hid]; rfl
      · by_cases hall : p.identities.filter (fun i => i.token.isSome) = []
        · exact hall
        · exfalso
          by_cases hav : p.identities.filter (Identity.isAvailable now) = []
          · have hlen : 0 < (p.identities.filter (fun i => i.token.isSome)).length := by
              cases hq : p.identities.filter (fun i => i.token.isSome) with
              | nil => exact absurd hq hall
              | cons a l => simp [hq]
            have hlt := Nat.mod_lt p.currentIndex hlen
            simp only [IdentityPool.getAvailableIdentity] at hnone
            rw [if_neg hid, if_pos hav, if_neg hall] at hnone
            rw [List.get?_eq_get hlt] at hnone
            cases hnone
          · have hlen : 0 < (p.identities.filter (Identity.isAvailable now)).length := by
              cases hq : p.identities.filter (Identity.isAvailable now) with
              | nil => exact absurd hq hav
              | cons a l => simp [hq]
            have hlt := Nat.mod_lt p.currentIndex hlen
            simp only [IdentityPool.getAvailableIdentity] at hnone
            rw [if_neg hid, if_neg hav] at hnone
            rw [List.get?_eq_get hlt] at hnone
            cases hnone
    · intro hall
      have hav : p.identities.filter (Identity.isAvailable now) = [] := by
        cases hq : p.identities.filter (Identity.isAvailable now) with
        | nil => rfl
        | cons a l =>
          exfalso
          have hmem : a ∈ p.identities.filter (Identity.isAvailable now) := by
            rw [hq]; exact List.mem_cons_self a l
          have hpair := List.mem_filter.mp hmem
          obtain ⟨-, -, t, ht, -⟩ := (havail a).mp hpair.2
          have hmem2 : a ∈ p.identities.filter (fun i => i.token.isSome) :=
            List.mem_filter.mpr ⟨hpair.1, by rw [ht]; rfl⟩
          rw [hall] at hmem2
          cases hmem2
      simp only [IdentityPool.getAvailableIdentity]
      by_cases hid : p.identities = []
      · rw [if_pos hid]
      · rw [if_neg hid, if_pos hav, if_pos hall]

/-- Witness for C4 at the two-credential pool: both credentials pass the
availability filter, so selection serves the filtered set at cursor mod
size, and the result is not `none` since tokens are held. -/
theorem getAvailableIdentity_witness :
    (rrPool.getAvailableIdentity 0).1 =
      (rrPool.identities.filter (Identity.isAvailable 0)).get?
        (rrPool.currentIndex % (rrPool.identities.filter (Identity.isAvailable 0)).length) ∧
    ((rrPool.getAvailableIdentity 0).1 = none ↔
      rrPool.identities.filter (fun i => i.token.isSome) = []) :=
  ⟨((getAvailableIdentity_spec 0 rrPool).2.1 (by decide)).1,
   (getAvailableIdentity_spec 0 rrPool).2.2.2⟩

/-! ## C5 — status is stored state -/

/-- Claim C5 counterexample: the same credential, at the same time
instant 0, is observed once with failure count 0 and status Healthy
(freshly constructed) and once with failure count 0 and status Degraded
(after three failures and three successes) — so its status field is not
a function of its failure count and the current time; it is a stored
flag that goes stale. -/
theorem status_not_function_of_failCount :
    staleIdentity.failCount = (newIdentity "a" "ca").failCount ∧
    staleIdentity.status ≠ (newIdentity "a" "ca").status := by
  decide

/-- Claim C5, amended: the status field is stored state, updated only by
the failure/success transitions and never recomputed on read: whenever
the credential is not available after the decrement, `markSuccess`
leaves status and cool-down untouched even though the failure count
drops, so the stored status can diverge from the counters. -/
theorem status_is_stored_not_recomputed (now : Nat) (i : Identity)
    (h : Identity.isAvailable now { i with failCount := i.failCount - 1 } = false) :
    (i.markSuccess now).status = i.status ∧
    (i.markSuccess now).nextRetryAt = i.nextRetryAt ∧
    (i.markSuccess now).failCount = i.failCount - 1 := by
  have hi1 : (if i.failCount > 0 then { i with failCount := i.failCount - 1 } else i)
      = { i with failCount := i.failCount - 1 } := by
    split
    · rfl
    · have h0 : i.failCount = 0 := by omega
      cases i
      simp_all
  simp only [Identity.markSuccess]
  rw [hi1, if_neg]
  · exact ⟨rfl, rfl, rfl⟩
  · rintro ⟨-, hav⟩
    rw [h] at hav
    cases hav

/-- Witness for C5's amended theorem at the thrice-failed credential:
a success decrements the count but the Degraded status persists. -/
theorem status_is_stored_witness :
    (threeFailures.markSuccess 0).status = threeFailures.status ∧
    (threeFailures.markSuccess 0).nextRetryAt = threeFailures.nextRetryAt ∧
    (threeFailures.markSuccess 0).failCount = threeFailures.failCount - 1 :=
  status_is_stored_not_recomputed 0 threeFailures (by decide)

/-! ## C10 — Down is not absorbing -/

/-- Claim C10 counterexample: a credential driven Down by five failures,
then given three successes (each decrementing the count while Down) and
one more failure (count back to 3, relabelled Degraded with a 2-minute
cool-down), is strictly available again once the cool-down has passed —
so a Down credential does not stay out of strict availability forever. -/
theorem down_identity_can_recover_availability :
    downIdentity.status = .down ∧
    escapedIdentity.status = .degraded ∧
    Identity.isAvailable 120000 escapedIdentity = true := by
  decide

/-- Claim C10, amended: while its status is Down a credential is never
strictly available (the Down check precedes the cool-down check), hence
never in the availability filter and only reachable through the
token-holding fallback; `markSuccess` never directly lifts a Down
status, and a further failure from a count of 4 or more keeps it Down.
However `markSuccess` still decrements the failure count while Down, so
a later failure can relabel the credential Degraded (see the
counterexample), after which it can become strictly available again. -/
theorem down_unavailable_and_sticky (now : Nat) (i : Identity)
    (h : i.status = .down) :
    Identity.isAvailable now i = false ∧
    (i.markSuccess now).status = .down ∧
    (∀ e, 4 ≤ i.failCount → (i.markFailure now e).status = .down) ∧
    (∀ l : List Identity, i ∉ l.filter (Identity.isAvailable now)) := by
  refine ⟨down_not_available now i h, ?_, ?_, ?_⟩
  · simp only [Identity.markSuccess]
    have h1 : (if i.failCount > 0 then { i with failCount := i.failCount - 1 }
        else i).status = .down := by
      split
      · exact h
      · exact h
    rw [if_neg]
    · exact h1
    · rintro ⟨-, hav⟩
      rw [down_not_available now _ h1] at hav
      cases hav
  · intro e h4
    simp only [Identity.markFailure]
    split
    · rfl
    · exfalso
      simp_all
  · intro l hmem
    have hfil := (List.mem_filter.mp hmem).2
    rw [down_not_available now i h] at hfil
    cases hfil

/-- Witness for C10's amended theorem at the five-failure credential. -/
theorem down_unavailable_witness :
    Identity.isAvailable 0 downIdentity = false ∧
    (downIdentity.markSuccess 0).status = .down ∧
    (downIdentity.markFailure 0 none).status = .down := by
  have hd := down_unavailable_and_sticky 0 downIdentity (by decide)
  exact ⟨hd.1, hd.2.1, hd.2.2.1 none (by decide)⟩

end QwenChat2Api
